import Mathlib

/-!
Shallow embedding of the AdMagic campaign-generation pipeline
(`src/services/geminiService.ts`) together with the UI-facing result type
(`src/App.tsx`).  Remote calls (the Gemini research call and the per-item
image-generation calls) are modelled as injected oracles; the embedding
records, per campaign run, the remote requests issued, the progress-callback
invocations, and the final resolve/reject outcome.
-/

namespace AdMagic

/-- Inline binary image data tagged with a MIME type (`Part.inlineData`). -/
structure InlineData where
  mimeType : String
  data : String
deriving DecidableEq, Repr

/-- One part of a Gemini request or response: plain text or inline image data. -/
structure Part where
  text : Option String := none
  inlineData : Option InlineData := none
deriving DecidableEq, Repr

/-- `content.parts` of one response candidate; `parts` may be absent. -/
structure Content where
  parts : Option (List Part) := none
deriving DecidableEq, Repr

/-- One candidate output of a generation response; `content` may be absent. -/
structure Candidate where
  content : Option Content := none
deriving DecidableEq, Repr

/-- A Gemini `GenerateContentResponse`: optional candidate list and the
`response.text` convenience field (absent when the model returned no text). -/
structure GenerateContentResponse where
  candidates : Option (List Candidate) := none
  text : Option String := none
deriving DecidableEq, Repr

/-- `ImageStatus` from `src/App.tsx`. -/
inductive ImageStatus
  | idle
  | pending
  | done
  | error
deriving DecidableEq, Repr

/-- `GeneratedImage` from `src/App.tsx`: the payload of one progress update. -/
structure GeneratedImage where
  status : ImageStatus
  url : Option String := none
  error : Option String := none
deriving DecidableEq, Repr

/-- The `AdFormData` options bundle. -/
structure AdFormData where
  aspectRatio : String
  productType : String
  productTitle : String
  flavor : String
  companyName : String
  tagline : String
  brandColors : String
deriving DecidableEq, Repr

/-- JS `\w` character class: ASCII letters, digits and underscore. -/
def isWordChar (c : Char) : Bool :=
  c.isAlpha || c.isDigit || c = '_'

/-- JS `.` (dot without the `s` flag) excludes line terminators. -/
def isLineTerminator (c : Char) : Bool :=
  c = '\n' || c = '\r' || c = Char.ofNat 0x2028 || c = Char.ofNat 0x2029

/-- `dataUrlToPart`: matches the regex `^data:(image\/\w+);base64,(.*)$`
against the string and, on a match, builds an inline-data part from the
captured MIME type and base64 payload; returns `none` (JS `null`) otherwise. -/
def dataUrlToPart (dataUrl : String) : Option Part :=
  let cs := dataUrl.data
  if cs.take 11 = "data:image/".data then
    let rest := cs.drop 11
    let word := rest.takeWhile isWordChar
    let rest2 := rest.dropWhile isWordChar
    if word ≠ [] ∧ rest2.take 8 = ";base64,".data then
      let payload := rest2.drop 8
      if payload.all (fun c => ¬ isLineTerminator c) then
        some { inlineData := some { mimeType := "image/" ++ String.mk word
                                    data := String.mk payload } }
      else none
    else none
  else none

/-- The message of the error thrown by `processGeminiResponse` when no
inline-image part is found: it embeds `response.text`, or the placeholder
when that field is absent or empty (JS `textResponse || '...'`). -/
def noImageMessage (textResponse : Option String) : String :=
  "The AI model responded with text instead of an image: \"" ++
    (match textResponse with
      | some t => if t = "" then "No text response received." else t
      | none => "No text response received.") ++ "\""

/-- `processGeminiResponse`: finds the first part of the first candidate that
carries inline data and returns its data URL; otherwise fails with the
text-instead-of-image error built from `response.text`. -/
def processGeminiResponse (response : GenerateContentResponse) :
    Except String String :=
  let imagePartFromResponse : Option Part :=
    ((((response.candidates.bind List.head?).bind Candidate.content).bind
        Content.parts).bind
      (fun parts => parts.find? (fun part => part.inlineData.isSome)))
  match imagePartFromResponse.bind Part.inlineData with
  | some d => .ok ("data:" ++ d.mimeType ++ ";base64," ++ d.data)
  | none => .error (noImageMessage response.text)

/-- JS `String.prototype.trim`, modelled on the ASCII whitespace characters. -/
def jsTrim (s : String) : String :=
  String.mk
    (((s.data.dropWhile Char.isWhitespace).reverse.dropWhile
        Char.isWhitespace).reverse)

/-- When `cs` starts with a match of the regex `PROMPT \d+:`, returns the
characters after the match; `none` when no match starts here. -/
def markerTail (cs : List Char) : Option (List Char) :=
  if cs.take 7 = "PROMPT ".data then
    let rest := cs.drop 7
    let ds := rest.takeWhile Char.isDigit
    let rest2 := rest.dropWhile Char.isDigit
    match ds, rest2 with
    | _ :: _, ':' :: tail => some tail
    | _, _ => none
  else none

/-- Fuelled scanner for JS `text.split(/PROMPT \d+:/)`: emits the segment
accumulated so far at each leftmost non-overlapping match and resumes after
it.  Each step consumes at least one character, so fuel `length + 1` is
always sufficient. -/
def splitFuel : Nat → List Char → List Char → List String
  | 0, acc, _ => [String.mk acc.reverse]
  | _ + 1, acc, [] => [String.mk acc.reverse]
  | fuel + 1, acc, c :: cs =>
    match markerTail (c :: cs) with
    | some tail => String.mk acc.reverse :: splitFuel fuel [] tail
    | none => splitFuel fuel (c :: acc) cs

/-- JS `text.split(/PROMPT \d+:/)`. -/
def splitPromptMarkers (text : String) : List String :=
  splitFuel (text.data.length + 1) [] text.data

/-- The segments the parser keeps: split on the marker, trim each piece,
drop the empty ones. -/
def researchSegments (text : String) : List String :=
  ((splitPromptMarkers text).map jsTrim).filter (fun p => 0 < p.length)

/-- Message of the error thrown when fewer than 10 prompts parse. -/
def insufficientConceptsMessage : String :=
  "The AI failed to generate enough creative concepts. Please try again."

/-- `parsePromptsFromText`: split on `PROMPT \d+:`, trim, drop empties; throw
when fewer than 10 remain, else return the first 10. -/
def parsePromptsFromText (text : String) : Except String (List String) :=
  let prompts := researchSegments text
  if prompts.length < 10 then
    .error insufficientConceptsMessage
  else
    .ok (prompts.take 10)

/-- The logo instruction chosen inside `generateSingleAd` from the presence
of a logo part. -/
def logoInstruction (logoImagePart : Option Part) : String :=
  match logoImagePart with
  | some _ =>
    "Incorporate the company logo from the second image subtly and professionally."
  | none => "No logo was provided, so do not add one."

/-- The template literal `textPrompt` of `generateSingleAd`. -/
def adTextPrompt (logoImagePart : Option Part) (creativePrompt : String)
    (options : AdFormData) : String :=
  "\nTASK: Create a professional advertisement using the provided product image.\nCONCEPT: "
    ++ creativePrompt
    ++ "\nINSTRUCTIONS:\n1. Place the product from the first image into the scene described by the concept.\n2. "
    ++ logoInstruction logoImagePart
    ++ "\n3. The final ad\x27s aspect ratio must be: " ++ options.aspectRatio
    ++ ".\n4. Adhere to the brand colors: " ++ options.brandColors
    ++ ".\n5. If a tagline is provided, incorporate it stylishly: \""
    ++ options.tagline ++ "\".\n"

/-- The `parts` array `generateSingleAd` sends: text prompt, product image,
and the logo image when present. -/
def adRequestParts (productImagePart : Part) (logoImagePart : Option Part)
    (creativePrompt : String) (options : AdFormData) : List Part :=
  [{ text := some (adTextPrompt logoImagePart creativePrompt options) },
    productImagePart] ++
    (match logoImagePart with
      | some lp => [lp]
      | none => [])

/-- Decidable equality for `Except`, so concrete outcomes can be checked by
`decide`. -/
instance {ε α : Type} [DecidableEq ε] [DecidableEq α] :
    DecidableEq (Except ε α) := fun x y =>
  match x, y with
  | .ok a, .ok b =>
    if h : a = b then isTrue (by rw [h])
    else isFalse (by intro hh; cases hh; exact h rfl)
  | .error a, .error b =>
    if h : a = b then isTrue (by rw [h])
    else isFalse (by intro hh; cases hh; exact h rfl)
  | .ok _, .error _ => isFalse (by intro hh; cases hh)
  | .error _, .ok _ => isFalse (by intro hh; cases hh)

/-- The observable behaviour of one `generateSingleAd` task: its outcome,
the generation requests it issued, and the backoff delays it performed. -/
structure SingleAdRun where
  result : Except String String
  requests : List (List Part)
  delaysMs : List Nat
deriving DecidableEq, Repr

/-- `generateSingleAd`: builds the request parts, performs exactly one
generation-API call (the oracle is indexed by attempt number so a retrying
implementation could be expressed over it), runs `processGeminiResponse`
inside the same `try`, and wraps any failure message with the
`AI model failed: ` prefix.  The source contains no retry loop and no timer,
so the single request and the empty delay list are recorded literally. -/
def generateSingleAd (productImagePart : Part) (logoImagePart : Option Part)
    (creativePrompt : String) (options : AdFormData)
    (api : Nat → List Part → Except String GenerateContentResponse) :
    SingleAdRun :=
  let parts := adRequestParts productImagePart logoImagePart creativePrompt
    options
  { result :=
      match api 0 parts with
      | .ok response =>
        match processGeminiResponse response with
        | .ok url => .ok url
        | .error e => .error ("AI model failed: " ++ e)
      | .error e => .error ("AI model failed: " ++ e)
    requests := [parts]
    delaysMs := [] }

/-- The template literal `researchPrompt` of `researchAndGenerateAds`. -/
def researchPromptText (options : AdFormData) : String :=
  "\nYou are a world-class creative director. Your task is to research popular advertising styles for a product and generate 10 unique, creative concepts for an ad campaign.\n\nPRODUCT DETAILS:\n- Product Type: "
    ++ options.productType
    ++ "\n- Product Title: " ++ options.productTitle
    ++ "\n- Flavor: " ++ options.flavor
    ++ "\n- Company Name: " ++ options.companyName
    ++ "\n- Target Vibe/Colors: " ++ options.brandColors
    ++ "\n\nBased on your research of current market trends for this type of product, generate exactly 10 distinct visual prompts for an image generation AI.\n\nEach prompt must be detailed and describe a complete scene.\n\nIMPORTANT: Format your response ONLY with the prompts. Each prompt must start with \"PROMPT [number]:\". Do not include any other text, greetings, or explanations.\n\nEXAMPLE:\nPROMPT 1: A dynamic action shot of the [product] splashing into a crystal clear wave on a sunny beach, with fresh [flavor] fruits scattered on the sand.\nPROMPT 2: A minimalist studio shot of the [product] on a pedestal made of ice, with soft, cool-toned lighting highlighting condensation on the can.\n...and so on for 10 prompts.\n"

/-- Message of the error thrown by the research-phase `catch` block. -/
def researchFailedMessage : String :=
  "The AI failed during the research phase. Please check your inputs and try again."

/-- Message of the error thrown when the product image is not a data URL. -/
def invalidProductImageMessage : String :=
  "Invalid product image data URL."

/-- The research `try`/`catch` of `researchAndGenerateAds`: issue the research
call, feed `response.text` to `parsePromptsFromText`; any failure inside the
block — a failed call, an absent `text` field (on which `text.split` throws),
or the parser's insufficient-concepts error — is caught and replaced by the
generic research-phase error. -/
def researchPhase (researchApi : String → Except String (Option String))
    (options : AdFormData) : Except String (List String) :=
  match researchApi (researchPromptText options) with
  | .error _ => .error researchFailedMessage
  | .ok none => .error researchFailedMessage
  | .ok (some text) =>
    match parsePromptsFromText text with
    | .error _ => .error researchFailedMessage
    | .ok creativePrompts => .ok creativePrompts

/-- The logo-part computation of `researchAndGenerateAds`: the JS conditional
`logoImageDataUrl ? dataUrlToPart(logoImageDataUrl) : null` (an empty string
is falsy). -/
def resolveLogoPart (logoImageDataUrl : Option String) : Option Part :=
  match logoImageDataUrl with
  | some s => if s = "" then none else dataUrlToPart s
  | none => none

/-- The observable behaviour of one `researchAndGenerateAds` run: how many
research calls were issued, every generation request issued, the sequence of
`onProgressUpdate` invocations, and whether the returned promise resolved
(`ok`) or rejected with an error message. -/
structure CampaignTrace where
  researchCalls : Nat
  genRequests : List (List Part)
  updates : List (Nat × GeneratedImage)
  outcome : Except String Unit
deriving Repr

/-- `researchAndGenerateAds`: research phase first (the research call is
always issued), then product-image validation, logo resolution, and the
`Promise.all` fan-out of one `generateSingleAd` task per creative prompt,
each reporting `done`/`error` through the callback under its own index.
The fan-out is sequentialised index-by-index; per-item outcomes never reject
the returned promise. -/
def researchAndGenerateAds (researchApi : String → Except String (Option String))
    (productImageDataUrl : String) (logoImageDataUrl : Option String)
    (options : AdFormData)
    (genApi : Nat → Nat → List Part → Except String GenerateContentResponse) :
    CampaignTrace :=
  match researchPhase researchApi options with
  | .error e =>
    { researchCalls := 1, genRequests := [], updates := [], outcome := .error e }
  | .ok creativePrompts =>
    match dataUrlToPart productImageDataUrl with
    | none =>
      { researchCalls := 1, genRequests := [], updates := []
        outcome := .error invalidProductImageMessage }
    | some productImagePart =>
      let logoImagePart := resolveLogoPart logoImageDataUrl
      let runs := creativePrompts.enum.map (fun ip =>
        (ip.1,
          generateSingleAd productImagePart logoImagePart ip.2 options
            (genApi ip.1)))
      { researchCalls := 1
        genRequests := (runs.map (fun r => r.2.requests)).flatten
        updates := runs.map (fun r =>
          match r.2.result with
          | .ok url => (r.1, { status := .done, url := some url })
          | .error e => (r.1, { status := .error, error := some e }))
        outcome := .ok () }

/-- The parts list of the first candidate of a response, empty when any link
of the optional chain is absent. -/
def firstCandidateParts (response : GenerateContentResponse) : List Part :=
  (((response.candidates.bind List.head?).bind Candidate.content).bind
    Content.parts).getD []

/-- Modelled from the spec: §4.1 Response Extractor.  Search the response's
structured output (the first candidate's content parts, §6) for a part
carrying inline image data; if found, return a data-URL string composed of
its MIME type and base64 payload; if absent, read the response's plain-text
field (possibly empty) and fail with an error carrying that text, or a
placeholder if it is empty or missing. -/
def responseExtractorSpec (response : GenerateContentResponse) :
    Except String String :=
  match ((firstCandidateParts response).filterMap Part.inlineData).head? with
  | some d => .ok ("data:" ++ d.mimeType ++ ";base64," ++ d.data)
  | none =>
    let t := (response.text.getD "")
    .error ("The AI model responded with text instead of an image: \"" ++
      (if t = "" then "No text response received." else t) ++ "\"")

/-- Substring test over character lists (structural, so it evaluates in the
kernel). -/
def listContains : List Char → List Char → Bool
  | [], needle => needle.isEmpty
  | c :: t, needle => needle.isPrefixOf (c :: t) || listContains t needle

/-- Modelled from the spec: §4.2 classifies a failure as retriable only if
its message indicates an internal/server-side error; the signature is
modelled as the message containing `INTERNAL`.  No such classifier exists in
`src`. -/
def isInternalErrorMessage (msg : String) : Bool :=
  listContains msg.data "INTERNAL".data

/-- Modelled from the spec: §4.2 Retrying Invoker, the behaviour claim C4
asserts of the generation call.  `attempt` is 0-based, `remaining` counts the
attempts still allowed after the current one; a retriable failure with
attempts remaining waits `1000 * 2 ^ attempt` ms and retries, any other
failure propagates unchanged.  Returns the final outcome and the delays
performed.  No retry loop exists in `src`. -/
def retrySpec (api : Nat → Except String GenerateContentResponse) :
    Nat → Nat → Except String GenerateContentResponse × List Nat
  | attempt, remaining =>
    match api attempt with
    | .ok r => (.ok r, [])
    | .error e =>
      match remaining with
      | 0 => (.error e, [])
      | rem + 1 =>
        if isInternalErrorMessage e then
          let next := retrySpec api (attempt + 1) rem
          (next.1, 1000 * 2 ^ attempt :: next.2)
        else (.error e, [])

/-- Modelled from the spec: the Retrying Invoker attempts up to 3 times. -/
def retryingInvokerSpec (api : Nat → Except String GenerateContentResponse) :
    Except String GenerateContentResponse × List Nat :=
  retrySpec api 0 2

/-- An inline PNG part. -/
def sampleImagePart : Part :=
  { inlineData := some { mimeType := "image/png", data := "AAAA" } }

/-- A response carrying one inline PNG in its first candidate. -/
def sampleImageResponse : GenerateContentResponse :=
  { candidates := some [{ content := some { parts := some [sampleImagePart] } }]
    text := none }

/-- A text-only response (no inline image anywhere). -/
def sampleTextResponse : GenerateContentResponse :=
  { candidates := some
      [{ content := some { parts := some [{ text := some "blocked" }] } }]
    text := some "blocked" }

/-- An options bundle with empty fields, used by concrete runs. -/
def sampleOptions : AdFormData :=
  { aspectRatio := "", productType := "", productTitle := "", flavor := ""
    companyName := "", tagline := "", brandColors := "" }

/-- A well-formed product-image data URL. -/
def sampleProductUrl : String := "data:image/png;base64,AAAA"

/-- A research reply carrying exactly 10 marker-prefixed segments. -/
def researchTextTen : String :=
  "PROMPT 1:a PROMPT 2:b PROMPT 3:c PROMPT 4:d PROMPT 5:e PROMPT 6:f PROMPT 7:g PROMPT 8:h PROMPT 9:i PROMPT 10:j"

/-- A research reply with a non-empty preamble before 10 marker-prefixed
segments. -/
def researchTextPreamble : String :=
  "Here you go. " ++ researchTextTen

/-- A research reply with only two marker-prefixed segments. -/
def researchTextShort : String := "PROMPT 1:a PROMPT 2:b"

/-- A research oracle that answers every prompt with `researchTextTen`. -/
def researchApiTen : String → Except String (Option String) :=
  fun _ => .ok (some researchTextTen)

/-- A generation oracle that always returns the sample image response. -/
def genApiAllOk : Nat → Nat → List Part → Except String GenerateContentResponse :=
  fun _ _ _ => .ok sampleImageResponse

/-- A generation oracle where the task at index 3 always fails and every
other task succeeds. -/
def genApiFailAt3 : Nat → Nat → List Part → Except String GenerateContentResponse :=
  fun index _ _ => if index = 3 then .error "boom" else .ok sampleImageResponse

/-- A response whose first candidate is text-only while its second candidate
carries an inline image. -/
def laterCandidateImageResponse : GenerateContentResponse :=
  { candidates := some
      [{ content := some { parts := some [{ text := some "declined" }] } },
        { content := some { parts := some [sampleImagePart] } }]
    text := some "declined" }

/-- An attempt-indexed generation oracle that fails its first attempt with an
internal-error signature and succeeds afterwards. -/
def failOnceInternalApi : Nat → Except String GenerateContentResponse :=
  fun attempt =>
    if attempt = 0 then .error "got a 500 INTERNAL error" else
      .ok sampleImageResponse

/-- The progress update reported for one task outcome. -/
def updateFor (r : Except String String) : GeneratedImage :=
  match r with
  | .ok url => { status := .done, url := some url }
  | .error e => { status := .error, error := some e }

/-- A successful parse always returns exactly 10 prompts. -/
theorem parse_ok_length {text : String} {ps : List String}
    (h : parsePromptsFromText text = .ok ps) : ps.length = 10 := by
  by_cases hlt : (researchSegments text).length < 10
  · simp [parsePromptsFromText, hlt] at h
  · simp [parsePromptsFromText, hlt] at h
    rw [← h]
    simp [List.length_take]
    omega

/-- A parse fails exactly when fewer than 10 segments survive the
split-trim-filter pipeline. -/
theorem parse_isOk_iff (text : String) :
    (parsePromptsFromText text).isOk = true ↔
      10 ≤ (researchSegments text).length := by
  by_cases hlt : (researchSegments text).length < 10 <;>
    (simp [parsePromptsFromText, hlt, Except.isOk, Except.toBool]; try omega)

/-- C3: for every research-response text, `parsePromptsFromText` splits the
text on the `PROMPT <n>:` marker pattern, trims each segment and discards
empty ones; if fewer than 10 non-empty segments result it fails with the
insufficient-concepts error (no padding, no retry), and otherwise it returns
exactly the first 10 segments in their original order. -/
theorem parse_prompts_first_ten (text : String) :
    ((researchSegments text).length < 10 →
      parsePromptsFromText text = .error insufficientConceptsMessage) ∧
    (10 ≤ (researchSegments text).length →
      parsePromptsFromText text = .ok ((researchSegments text).take 10) ∧
      ∀ ps, parsePromptsFromText text = .ok ps → ps.length = 10) := by
  constructor
  · intro h
    simp [parsePromptsFromText, h]
  · intro h
    have hlt : ¬ (researchSegments text).length < 10 := by omega
    refine ⟨by simp [parsePromptsFromText, hlt], ?_⟩
    intro ps hps
    exact parse_ok_length hps

/-- Witness for C3 at concrete inputs: a two-segment reply fails, a
ten-segment reply returns the first 10 segments. -/
theorem parse_prompts_first_ten_witness :
    ((researchSegments researchTextShort).length < 10 ∧
      parsePromptsFromText researchTextShort =
        .error insufficientConceptsMessage) ∧
    (10 ≤ (researchSegments researchTextTen).length ∧
      parsePromptsFromText researchTextTen =
        .ok ((researchSegments researchTextTen).take 10)) :=
  ⟨⟨by decide, (parse_prompts_first_ten researchTextShort).1 (by decide)⟩,
    ⟨by decide,
      ((parse_prompts_first_ten researchTextTen).2 (by decide)).1⟩⟩

/-- C10: when the text before the first `PROMPT <n>:` marker trims to a
non-empty string, the parser counts that preamble as the first segment; with
a preamble plus 10 marker-prefixed non-empty prompts, the returned list is
the preamble followed by the first 9 marked prompts, and the 10th marked
prompt is dropped. -/
theorem preamble_displaces_last_prompt (text pre : String) (segs : List String)
    (h1 : splitPromptMarkers text = pre :: segs)
    (h2 : 0 < (jsTrim pre).length)
    (h3 : ((segs.map jsTrim).filter (fun p => 0 < p.length)).length = 10) :
    parsePromptsFromText text =
      .ok (jsTrim pre ::
        ((segs.map jsTrim).filter (fun p => 0 < p.length)).take 9) := by
  have hseg : researchSegments text =
      jsTrim pre :: ((segs.map jsTrim).filter (fun p => 0 < p.length)) := by
    simp [researchSegments, h1, List.filter_cons, h2]
  have hlen : ¬ (researchSegments text).length < 10 := by
    rw [hseg]
    simp [h3]
  simp [parsePromptsFromText, hlen, hseg]
  omega

/-- Witness for C10: a concrete reply with a preamble and 10 marked prompts
returns the preamble plus prompts 1–9; prompt 10 (`"j"`) is dropped. -/
theorem preamble_displaces_last_prompt_witness :
    parsePromptsFromText researchTextPreamble =
      .ok (jsTrim "Here you go. " ::
        ((["a ", "b ", "c ", "d ", "e ", "f ", "g ", "h ", "i ", "j"].map
            jsTrim).filter (fun p => 0 < p.length)).take 9) :=
  preamble_displaces_last_prompt researchTextPreamble "Here you go. "
    ["a ", "b ", "c ", "d ", "e ", "f ", "g ", "h ", "i ", "j"]
    (by decide) (by decide) (by decide)

/-- The `find the first part with inline data, then read its inline data`
chain of the source equals `keep the inline payloads, take the first`. -/
theorem find_inline_eq_head_filterMap (l : List Part) :
    (l.find? (fun part => part.inlineData.isSome)).bind Part.inlineData =
      (l.filterMap Part.inlineData).head? := by
  induction l with
  | nil => simp
  | cons p t ih =>
    cases hp : p.inlineData <;>
      simp [List.find?_cons, List.filterMap_cons, hp, ih]

/-- C5: `processGeminiResponse` refines the spec's Response Extractor: it
returns the data URL of the first inline-image part of the response's
structured output when one exists, and otherwise fails with an error carrying
the response's plain-text field, or the placeholder when that text is empty
or absent. -/
theorem response_extractor_refines_spec (response : GenerateContentResponse) :
    processGeminiResponse response = responseExtractorSpec response := by
  unfold processGeminiResponse responseExtractorSpec firstCandidateParts
  cases hc :
      ((response.candidates.bind List.head?).bind Candidate.content).bind
        Content.parts with
  | none =>
    cases ht : response.text with
    | none => simp [hc, ht, noImageMessage]
    | some t => simp [hc, ht, noImageMessage]
  | some parts =>
    cases hf : (parts.filterMap Part.inlineData).head? with
    | none =>
      cases ht : response.text with
      | none => simp [find_inline_eq_head_filterMap, hf, ht, noImageMessage]
      | some t => simp [find_inline_eq_head_filterMap, hf, ht, noImageMessage]
    | some d => simp [find_inline_eq_head_filterMap, hf]

/-- C9: whenever the first candidate of a response contains no inline-image
part, `processGeminiResponse` fails with the text-instead-of-image error,
regardless of what any later candidate contains: only the first candidate's
parts are searched. -/
theorem only_first_candidate_searched (response : GenerateContentResponse)
    (c : Candidate) (rest : List Candidate)
    (h1 : response.candidates = some (c :: rest))
    (h2 : ∀ p ∈ (c.content.bind Content.parts).getD [], p.inlineData = none) :
    processGeminiResponse response = .error (noImageMessage response.text) := by
  unfold processGeminiResponse
  rw [h1]
  cases hcc : c.content with
  | none => simp [hcc]
  | some content =>
    cases hps : content.parts with
    | none => simp [hcc, hps]
    | some parts =>
      have hfind : parts.find? (fun part => part.inlineData.isSome) = none := by
        rw [List.find?_eq_none]
        intro p hp
        have := h2 p (by simp [hcc, hps, hp])
        simp [this]
      simp [hcc, hps, hfind]

/-- Witness for C9: on `laterCandidateImageResponse` the extractor fails with
the text error even though the second candidate holds an image. -/
theorem only_first_candidate_searched_witness :
    processGeminiResponse laterCandidateImageResponse =
      .error (noImageMessage laterCandidateImageResponse.text) :=
  only_first_candidate_searched laterCandidateImageResponse
    { content := some { parts := some [{ text := some "declined" }] } }
    [{ content := some { parts := some [sampleImagePart] } }]
    (by rfl) (by decide)

/-- Counterexample to C4: on an oracle that fails once with an internal-error
signature and then succeeds, the claimed Retrying Invoker returns the success
after one 1000 ms delay, but `generateSingleAd` performs no retry and no
delay: it issues exactly one request and propagates the failure wrapped with
the `AI model failed: ` prefix. -/
theorem retry_policy_counterexample :
    isInternalErrorMessage "got a 500 INTERNAL error" = true ∧
    (retryingInvokerSpec failOnceInternalApi).1 = .ok sampleImageResponse ∧
    (retryingInvokerSpec failOnceInternalApi).2 = [1000] ∧
    (generateSingleAd sampleImagePart none "p" sampleOptions
        (fun attempt _ => failOnceInternalApi attempt)).result =
      .error "AI model failed: got a 500 INTERNAL error" ∧
    (generateSingleAd sampleImagePart none "p" sampleOptions
        (fun attempt _ => failOnceInternalApi attempt)).delaysMs = [] ∧
    (generateSingleAd sampleImagePart none "p" sampleOptions
        (fun attempt _ => failOnceInternalApi attempt)).requests.length = 1 := by
  refine ⟨by decide, ?_, ?_, by decide, rfl, rfl⟩ <;> decide

/-- C4 as amended: every image-generation API call is attempted exactly once;
`generateSingleAd` issues a single request, performs no delay, and any
failure of the call propagates immediately wrapped with the
`AI model failed: ` prefix. -/
theorem generation_single_attempt (productImagePart : Part)
    (logoImagePart : Option Part) (creativePrompt : String)
    (options : AdFormData)
    (api : Nat → List Part → Except String GenerateContentResponse) :
    (generateSingleAd productImagePart logoImagePart creativePrompt options
        api).requests =
      [adRequestParts productImagePart logoImagePart creativePrompt options] ∧
    (generateSingleAd productImagePart logoImagePart creativePrompt options
        api).delaysMs = [] ∧
    ∀ e,
      api 0 (adRequestParts productImagePart logoImagePart creativePrompt
          options) = .error e →
      (generateSingleAd productImagePart logoImagePart creativePrompt options
          api).result = .error ("AI model failed: " ++ e) := by
  refine ⟨rfl, rfl, ?_⟩
  intro e h
  simp [generateSingleAd, h]

/-- Witness for the amended C4 at a concrete failing oracle. -/
theorem generation_single_attempt_witness :
    (generateSingleAd sampleImagePart none "q" sampleOptions
        (fun _ _ => .error "quota exceeded")).result =
      .error ("AI model failed: " ++ "quota exceeded") :=
  (generation_single_attempt sampleImagePart none "q" sampleOptions
      (fun _ _ => .error "quota exceeded")).2.2 "quota exceeded" rfl

/-- The research phase succeeds when the call returns text that parses. -/
theorem researchPhase_ok_of {researchApi : String → Except String (Option String)}
    {options : AdFormData} {text : String} {prompts : List String}
    (h1 : researchApi (researchPromptText options) = .ok (some text))
    (h2 : parsePromptsFromText text = .ok prompts) :
    researchPhase researchApi options = .ok prompts := by
  simp [researchPhase, h1, h2]

/-- A successful research phase comes from a successful call whose text
parsed into prompts. -/
theorem researchPhase_ok_inv {researchApi : String → Except String (Option String)}
    {options : AdFormData} {prompts : List String}
    (h : researchPhase researchApi options = .ok prompts) :
    ∃ text, researchApi (researchPromptText options) = .ok (some text) ∧
      parsePromptsFromText text = .ok prompts := by
  cases hr : researchApi (researchPromptText options) with
  | error e => simp [researchPhase, hr] at h
  | ok o =>
    cases o with
    | none => simp [researchPhase, hr] at h
    | some text =>
      cases hp : parsePromptsFromText text with
      | error e => simp [researchPhase, hr, hp] at h
      | ok ps =>
        simp [researchPhase, hr, hp] at h
        exact ⟨text, rfl, by rw [hp, h]⟩

/-- A failed research phase always carries the generic research message. -/
theorem researchPhase_error_inv {researchApi : String → Except String (Option String)}
    {options : AdFormData} {e : String}
    (h : researchPhase researchApi options = .error e) :
    e = researchFailedMessage := by
  cases hr : researchApi (researchPromptText options) with
  | error e2 => simp [researchPhase, hr] at h; exact h.symm
  | ok o =>
    cases o with
    | none => simp [researchPhase, hr] at h; exact h.symm
    | some text =>
      cases hp : parsePromptsFromText text with
      | error e2 => simp [researchPhase, hr, hp] at h; exact h.symm
      | ok ps => simp [researchPhase, hr, hp] at h

/-- Trace of a campaign whose research phase failed. -/
theorem campaign_of_researchError {researchApi : String → Except String (Option String)}
    {productUrl : String} {logoUrl : Option String} {options : AdFormData}
    {genApi : Nat → Nat → List Part → Except String GenerateContentResponse}
    {e : String} (h : researchPhase researchApi options = .error e) :
    researchAndGenerateAds researchApi productUrl logoUrl options genApi =
      { researchCalls := 1, genRequests := [], updates := []
        outcome := .error e } := by
  simp [researchAndGenerateAds, h]

/-- Trace of a campaign that failed product-image validation after a
successful research phase. -/
theorem campaign_of_invalidProduct {researchApi : String → Except String (Option String)}
    {productUrl : String} {logoUrl : Option String} {options : AdFormData}
    {genApi : Nat → Nat → List Part → Except String GenerateContentResponse}
    {prompts : List String}
    (h1 : researchPhase researchApi options = .ok prompts)
    (h2 : dataUrlToPart productUrl = none) :
    researchAndGenerateAds researchApi productUrl logoUrl options genApi =
      { researchCalls := 1, genRequests := [], updates := []
        outcome := .error invalidProductImageMessage } := by
  simp [researchAndGenerateAds, h1, h2]

/-- Flattening a list of singletons is the list of their elements. -/
theorem flatten_map_singleton {α β : Type} (l : List α) (g : α → β) :
    ((l.map fun x => [g x]).flatten) = l.map g := by
  induction l with
  | nil => rfl
  | cons a t ih => simp [ih]

/-- The generation requests issued by a fanned-out campaign: one request per
enumerated prompt. -/
theorem campaign_fanout_genRequests {researchApi : String → Except String (Option String)}
    {productUrl : String} {logoUrl : Option String} {options : AdFormData}
    {genApi : Nat → Nat → List Part → Except String GenerateContentResponse}
    {prompts : List String} {productImagePart : Part}
    (h1 : researchPhase researchApi options = .ok prompts)
    (h2 : dataUrlToPart productUrl = some productImagePart) :
    (researchAndGenerateAds researchApi productUrl logoUrl options
        genApi).genRequests =
      prompts.enum.map (fun ip =>
        adRequestParts productImagePart (resolveLogoPart logoUrl) ip.2
          options) := by
  simp [researchAndGenerateAds, h1, h2, generateSingleAd, List.map_map,
    Function.comp_def, flatten_map_singleton]

/-- A fanned-out campaign always resolves. -/
theorem campaign_fanout_outcome {researchApi : String → Except String (Option String)}
    {productUrl : String} {logoUrl : Option String} {options : AdFormData}
    {genApi : Nat → Nat → List Part → Except String GenerateContentResponse}
    {prompts : List String} {productImagePart : Part}
    (h1 : researchPhase researchApi options = .ok prompts)
    (h2 : dataUrlToPart productUrl = some productImagePart) :
    (researchAndGenerateAds researchApi productUrl logoUrl options
        genApi).outcome = .ok () := by
  simp [researchAndGenerateAds, h1, h2]

/-- The callback invocations of a fanned-out campaign: each enumerated prompt
reports under its own index. -/
theorem campaign_fanout_updates {researchApi : String → Except String (Option String)}
    {productUrl : String} {logoUrl : Option String} {options : AdFormData}
    {genApi : Nat → Nat → List Part → Except String GenerateContentResponse}
    {prompts : List String} {productImagePart : Part}
    (h1 : researchPhase researchApi options = .ok prompts)
    (h2 : dataUrlToPart productUrl = some productImagePart) :
    (researchAndGenerateAds researchApi productUrl logoUrl options
        genApi).updates =
      prompts.enum.map (fun ip =>
        (ip.1,
          updateFor
            (generateSingleAd productImagePart (resolveLogoPart logoUrl) ip.2
                options (genApi ip.1)).result)) := by
  simp only [researchAndGenerateAds, h1, h2]
  rw [List.map_map]
  refine List.map_congr_left ?_
  intro ip _
  cases hr : (generateSingleAd productImagePart (resolveLogoPart logoUrl) ip.2
      options (genApi ip.1)).result <;>
    simp [Function.comp_def, updateFor, hr]

/-- C2: the orchestrator never issues a generation call when the research
phase yields fewer than 10 prompts — the whole campaign fails instead — and
when it does fan out it launches exactly one generation task per prompt, for
exactly 10 prompts. -/
theorem fanout_exactly_ten (researchApi : String → Except String (Option String))
    (productUrl : String) (logoUrl : Option String) (options : AdFormData)
    (genApi : Nat → Nat → List Part → Except String GenerateContentResponse) :
    (∀ text, researchApi (researchPromptText options) = .ok (some text) →
      (researchSegments text).length < 10 →
      (researchAndGenerateAds researchApi productUrl logoUrl options
          genApi).genRequests = [] ∧
      (researchAndGenerateAds researchApi productUrl logoUrl options
          genApi).outcome.isOk = false) ∧
    ((researchAndGenerateAds researchApi productUrl logoUrl options
        genApi).genRequests ≠ [] →
      ∃ text prompts,
        researchApi (researchPromptText options) = .ok (some text) ∧
        parsePromptsFromText text = .ok prompts ∧
        prompts.length = 10 ∧
        (researchAndGenerateAds researchApi productUrl logoUrl options
            genApi).genRequests.length = prompts.length ∧
        (researchAndGenerateAds researchApi productUrl logoUrl options
            genApi).updates.length = 10) := by
  constructor
  · intro text hr hshort
    have hp : parsePromptsFromText text = .error insufficientConceptsMessage := by
      simp [parsePromptsFromText, hshort]
    have hph : researchPhase researchApi options = .error researchFailedMessage := by
      simp [researchPhase, hr, hp]
    rw [campaign_of_researchError hph]
    exact ⟨rfl, rfl⟩
  · intro hne
    cases hph : researchPhase researchApi options with
    | error e =>
      exact absurd (by rw [campaign_of_researchError hph]) hne
    | ok prompts =>
      cases hpd : dataUrlToPart productUrl with
      | none =>
        exact absurd (by rw [campaign_of_invalidProduct hph hpd]) hne
      | some productImagePart =>
        obtain ⟨text, hr, hp⟩ := researchPhase_ok_inv hph
        refine ⟨text, prompts, hr, hp, parse_ok_length hp, ?_, ?_⟩
        · rw [campaign_fanout_genRequests hph hpd]
          simp
        · rw [campaign_fanout_updates hph hpd]
          simp [parse_ok_length hp]

/-- Witness for C2: a two-segment reply issues no generation call, and a
ten-segment reply fans out to 10 requests. -/
theorem fanout_exactly_ten_witness :
    ((researchAndGenerateAds (fun _ => .ok (some researchTextShort))
        sampleProductUrl none sampleOptions genApiAllOk).genRequests = [] ∧
      (researchAndGenerateAds (fun _ => .ok (some researchTextShort))
          sampleProductUrl none sampleOptions
          genApiAllOk).outcome.isOk = false) ∧
    (∃ text prompts,
      researchApiTen (researchPromptText sampleOptions) = .ok (some text) ∧
      parsePromptsFromText text = .ok prompts ∧
      prompts.length = 10 ∧
      (researchAndGenerateAds researchApiTen sampleProductUrl none
          sampleOptions genApiAllOk).genRequests.length = prompts.length ∧
      (researchAndGenerateAds researchApiTen sampleProductUrl none
          sampleOptions genApiAllOk).updates.length = 10) :=
  ⟨(fanout_exactly_ten (fun _ => .ok (some researchTextShort))
      sampleProductUrl none sampleOptions genApiAllOk).1 researchTextShort
      rfl (by decide),
    (fanout_exactly_ten researchApiTen sampleProductUrl none sampleOptions
        genApiAllOk).2 (by decide)⟩

/-- Counterexample to C1: a run whose research phase succeeds with 10 prompts
but whose product image is malformed rejects with the invalid-image error and
never invokes the progress callback — so a campaign with successful research
can still reject, and the callback is not invoked for each index. -/
theorem campaign_rejects_despite_research_counterexample :
    (parsePromptsFromText researchTextTen).isOk = true ∧
    researchApiTen (researchPromptText sampleOptions) =
      .ok (some researchTextTen) ∧
    dataUrlToPart "notadataurl" = none ∧
    (researchAndGenerateAds researchApiTen "notadataurl" none sampleOptions
        genApiAllOk).outcome = .error invalidProductImageMessage ∧
    (researchAndGenerateAds researchApiTen "notadataurl" none sampleOptions
        genApiAllOk).updates = [] := by
  refine ⟨by decide, rfl, by decide, by decide, by decide⟩

/-- C1 as amended: when the research phase succeeds with 10 prompts and the
product image is a valid image data URL, the callback is invoked exactly once
for each index 0..9, each invocation carrying a done result with a URL or an
error result with a message, and the campaign resolves; the campaign rejects
only when the research phase fails or the product image is malformed. -/
theorem campaign_reports_all_ten :
    (∀ (researchApi : String → Except String (Option String))
        (productUrl : String) (logoUrl : Option String) (options : AdFormData)
        (genApi : Nat → Nat → List Part → Except String GenerateContentResponse)
        (text : String) (prompts : List String) (productImagePart : Part),
      researchApi (researchPromptText options) = .ok (some text) →
      parsePromptsFromText text = .ok prompts →
      dataUrlToPart productUrl = some productImagePart →
      (researchAndGenerateAds researchApi productUrl logoUrl options
          genApi).outcome = .ok () ∧
      (researchAndGenerateAds researchApi productUrl logoUrl options
          genApi).updates.map Prod.fst = List.range 10 ∧
      ∀ u ∈ (researchAndGenerateAds researchApi productUrl logoUrl options
          genApi).updates,
        (u.2.status = .done ∧ u.2.url.isSome = true ∧ u.2.error = none) ∨
        (u.2.status = .error ∧ u.2.url = none ∧ u.2.error.isSome = true)) ∧
    (∀ (researchApi : String → Except String (Option String))
        (productUrl : String) (logoUrl : Option String) (options : AdFormData)
        (genApi : Nat → Nat → List Part → Except String GenerateContentResponse),
      (researchAndGenerateAds researchApi productUrl logoUrl options
          genApi).outcome.isOk = false →
      researchPhase researchApi options = .error researchFailedMessage ∨
      dataUrlToPart productUrl = none) := by
  constructor
  · intro researchApi productUrl logoUrl options genApi text prompts
      productImagePart h1 h2 h3
    have hph := researchPhase_ok_of h1 h2
    refine ⟨campaign_fanout_outcome hph h3, ?_, ?_⟩
    · rw [campaign_fanout_updates hph h3, List.map_map]
      have hcomp :
          (Prod.fst ∘ fun ip : Nat × String =>
            (ip.1,
              updateFor
                (generateSingleAd productImagePart (resolveLogoPart logoUrl)
                    ip.2 options (genApi ip.1)).result)) = Prod.fst := rfl
      rw [hcomp]
      simp [parse_ok_length h2]
    · rw [campaign_fanout_updates hph h3]
      intro u hu
      simp only [List.mem_map] at hu
      obtain ⟨ip, _, rfl⟩ := hu
      cases hr : (generateSingleAd productImagePart (resolveLogoPart logoUrl)
          ip.2 options (genApi ip.1)).result with
      | ok url => exact Or.inl (by simp [updateFor, hr])
      | error e => exact Or.inr (by simp [updateFor, hr])
  · intro researchApi productUrl logoUrl options genApi h
    cases hph : researchPhase researchApi options with
    | error e =>
      have he := researchPhase_error_inv hph
      subst he
      exact Or.inl rfl
    | ok prompts =>
      cases hpd : dataUrlToPart productUrl with
      | none => exact Or.inr rfl
      | some productImagePart =>
        rw [campaign_fanout_outcome hph hpd] at h
        cases h

/-- Witness for the amended C1 at the spec's scenario: item 3 always fails,
the other 9 succeed; the callback covers indices 0..9 and the campaign
resolves. -/
theorem campaign_reports_all_ten_witness :
    (researchAndGenerateAds researchApiTen sampleProductUrl none sampleOptions
        genApiFailAt3).outcome = .ok () ∧
    (researchAndGenerateAds researchApiTen sampleProductUrl none sampleOptions
        genApiFailAt3).updates.map Prod.fst = List.range 10 ∧
    ∀ u ∈ (researchAndGenerateAds researchApiTen sampleProductUrl none
        sampleOptions genApiFailAt3).updates,
      (u.2.status = .done ∧ u.2.url.isSome = true ∧ u.2.error = none) ∨
      (u.2.status = .error ∧ u.2.url = none ∧ u.2.error.isSome = true) :=
  campaign_reports_all_ten.1 researchApiTen sampleProductUrl none
    sampleOptions genApiFailAt3 researchTextTen
    ["a", "b", "c", "d", "e", "f", "g", "h", "i", "j"] sampleImagePart rfl
    (by decide) (by decide)

/-- Counterexample to C6: with a malformed product image the campaign does
fail with the invalid-image error, but only after the research remote call
was issued — the claim that no remote call happens before the failure is
false. -/
theorem research_call_precedes_validation_counterexample :
    dataUrlToPart "notadataurl" = none ∧
    (researchAndGenerateAds researchApiTen "notadataurl" none sampleOptions
        genApiAllOk).researchCalls = 1 ∧
    (researchAndGenerateAds researchApiTen "notadataurl" none sampleOptions
        genApiAllOk).outcome = .error invalidProductImageMessage := by
  refine ⟨by decide, rfl, by decide⟩

/-- C6 as amended: for every malformed product-image string the campaign
fails and issues no generation call, but the research call is always issued
first (product-image validation happens only after the research phase); when
the research phase succeeded with 10 prompts the failure is the
invalid-image error. -/
theorem invalid_product_no_generation (researchApi : String → Except String (Option String))
    (productUrl : String) (logoUrl : Option String) (options : AdFormData)
    (genApi : Nat → Nat → List Part → Except String GenerateContentResponse)
    (h : dataUrlToPart productUrl = none) :
    (researchAndGenerateAds researchApi productUrl logoUrl options
        genApi).researchCalls = 1 ∧
    (researchAndGenerateAds researchApi productUrl logoUrl options
        genApi).genRequests = [] ∧
    (researchAndGenerateAds researchApi productUrl logoUrl options
        genApi).outcome.isOk = false ∧
    ∀ text prompts,
      researchApi (researchPromptText options) = .ok (some text) →
      parsePromptsFromText text = .ok prompts →
      (researchAndGenerateAds researchApi productUrl logoUrl options
          genApi).outcome = .error invalidProductImageMessage := by
  cases hph : researchPhase researchApi options with
  | error e =>
    rw [campaign_of_researchError hph]
    refine ⟨rfl, rfl, rfl, ?_⟩
    intro text prompts hr hp
    have := researchPhase_ok_of hr hp
    rw [hph] at this
    cases this
  | ok prompts =>
    rw [campaign_of_invalidProduct hph h]
    exact ⟨rfl, rfl, rfl, fun _ _ _ _ => rfl⟩

/-- Witness for the amended C6 at a concrete malformed product image. -/
theorem invalid_product_no_generation_witness :
    (researchAndGenerateAds researchApiTen "notadataurl" none sampleOptions
        genApiAllOk).researchCalls = 1 ∧
    (researchAndGenerateAds researchApiTen "notadataurl" none sampleOptions
        genApiAllOk).genRequests = [] ∧
    (researchAndGenerateAds researchApiTen "notadataurl" none sampleOptions
        genApiAllOk).outcome = .error invalidProductImageMessage :=
  ⟨(invalid_product_no_generation researchApiTen "notadataurl" none
      sampleOptions genApiAllOk (by decide)).1,
    (invalid_product_no_generation researchApiTen "notadataurl" none
        sampleOptions genApiAllOk (by decide)).2.1,
    (invalid_product_no_generation researchApiTen "notadataurl" none
        sampleOptions genApiAllOk (by decide)).2.2.2 researchTextTen
      ["a", "b", "c", "d", "e", "f", "g", "h", "i", "j"] rfl (by decide)⟩

/-- Counterexample to C7: a research reply with fewer than 10 marked segments
makes the campaign fail with the generic research-phase message, not the
distinct insufficient-concepts message. -/
theorem insufficient_concepts_error_kind_counterexample :
    (researchSegments researchTextShort).length < 10 ∧
    (researchAndGenerateAds (fun _ => .ok (some researchTextShort))
        sampleProductUrl none sampleOptions genApiAllOk).outcome =
      .error researchFailedMessage ∧
    researchFailedMessage ≠ insufficientConceptsMessage ∧
    (researchAndGenerateAds (fun _ => .ok (some researchTextShort))
        sampleProductUrl none sampleOptions genApiAllOk).genRequests = [] := by
  refine ⟨by decide, by decide, by decide, by decide⟩

/-- C7 as amended: when the research call returns fewer than 10
marker-prefixed segments the campaign fails and issues zero generation calls,
but the parser's insufficient-concepts error is swallowed by the
research-phase catch: the campaign-level error carries the generic
research-phase message. -/
theorem insufficient_concepts_swallowed (researchApi : String → Except String (Option String))
    (productUrl : String) (logoUrl : Option String) (options : AdFormData)
    (genApi : Nat → Nat → List Part → Except String GenerateContentResponse)
    (text : String)
    (h1 : researchApi (researchPromptText options) = .ok (some text))
    (h2 : (researchSegments text).length < 10) :
    (researchAndGenerateAds researchApi productUrl logoUrl options
        genApi).outcome = .error researchFailedMessage ∧
    (researchAndGenerateAds researchApi productUrl logoUrl options
        genApi).genRequests = [] ∧
    (researchAndGenerateAds researchApi productUrl logoUrl options
        genApi).updates = [] := by
  have hp : parsePromptsFromText text = .error insufficientConceptsMessage := by
    simp [parsePromptsFromText, h2]
  have hph : researchPhase researchApi options = .error researchFailedMessage := by
    simp [researchPhase, h1, hp]
  rw [campaign_of_researchError hph]
  exact ⟨rfl, rfl, rfl⟩

/-- Witness for the amended C7 at a concrete two-segment reply. -/
theorem insufficient_concepts_swallowed_witness :
    (researchAndGenerateAds (fun _ => .ok (some researchTextShort))
        sampleProductUrl none sampleOptions genApiAllOk).outcome =
      .error researchFailedMessage ∧
    (researchAndGenerateAds (fun _ => .ok (some researchTextShort))
        sampleProductUrl none sampleOptions genApiAllOk).genRequests = [] ∧
    (researchAndGenerateAds (fun _ => .ok (some researchTextShort))
        sampleProductUrl none sampleOptions genApiAllOk).updates = [] :=
  insufficient_concepts_swallowed (fun _ => .ok (some researchTextShort))
    sampleProductUrl none sampleOptions genApiAllOk researchTextShort rfl
    (by decide)

/-- A malformed non-empty logo string resolves to no logo part. -/
theorem resolveLogoPart_malformed {s : String} (h : dataUrlToPart s = none) :
    resolveLogoPart (some s) = resolveLogoPart none := by
  by_cases hs : s = "" <;> simp [resolveLogoPart, hs, h]

/-- Counterexample to C8: with a non-null malformed logo string the campaign
does not fail with the invalid-image error — it resolves successfully. -/
theorem malformed_logo_accepted_counterexample :
    dataUrlToPart "garbagelogo" = none ∧
    (researchAndGenerateAds researchApiTen sampleProductUrl
        (some "garbagelogo") sampleOptions genApiAllOk).outcome = .ok () := by
  refine ⟨by decide, by decide⟩

/-- C8 as amended: a non-null logo string that is not a valid image data URL
is silently ignored — the campaign behaves exactly as if no logo had been
supplied, and in particular never fails with the invalid-image error because
of the logo. -/
theorem malformed_logo_silently_ignored (researchApi : String → Except String (Option String))
    (productUrl : String) (options : AdFormData)
    (genApi : Nat → Nat → List Part → Except String GenerateContentResponse)
    (logoStr : String) (h : dataUrlToPart logoStr = none) :
    researchAndGenerateAds researchApi productUrl (some logoStr) options
        genApi =
      researchAndGenerateAds researchApi productUrl none options genApi := by
  cases hph : researchPhase researchApi options with
  | error e =>
    rw [campaign_of_researchError hph, campaign_of_researchError hph]
  | ok prompts =>
    cases hpd : dataUrlToPart productUrl with
    | none =>
      rw [campaign_of_invalidProduct hph hpd,
        campaign_of_invalidProduct hph hpd]
    | some productImagePart =>
      simp only [researchAndGenerateAds, hph, hpd]
      rw [resolveLogoPart_malformed h]

/-- Witness for the amended C8 at a concrete malformed logo. -/
theorem malformed_logo_silently_ignored_witness :
    researchAndGenerateAds researchApiTen sampleProductUrl
        (some "garbagelogo") sampleOptions genApiAllOk =
      researchAndGenerateAds researchApiTen sampleProductUrl none
        sampleOptions genApiAllOk :=
  malformed_logo_silently_ignored researchApiTen sampleProductUrl
    sampleOptions genApiAllOk "garbagelogo" (by decide)

end AdMagic
